import Mathlib

/-!
Verification of the request-lifecycle orchestration of the Auto App Builder
service (src/app/main.py, src/app/models.py).

The two core functions are embedded as pure Lean functions:

  receive_request : the HTTP intake path (secret check, duplicate detection,
    background scheduling), returning its synchronous response together with
    a trace of the side effects it performs.

  process_request : the background publish sequence (attachment
    materialization, repo creation, optional round-2 README fetch, code
    generation, round-1 attachment commits, common file commits, LICENSE,
    pages enablement, commit-SHA fetch, notification, idempotency record).

External collaborators (the code generator, the repository provider, the
notifier and the filesystem) are modelled as an Oracle: a record of the
answers they give during one run.  Every call the orchestrator makes to a
collaborator is recorded as an Event in an event trace, so claims about
which calls happen (and with which arguments) become claims about that
trace.  The functions decode_attachments, create_repo,
create_or_update_file, create_or_update_binary_file, enable_pages,
generate_mit_license, generate_app_code and notify_evaluation_server live
in repository modules that are not part of the provided sources; they are
treated at their interface, as the specification prescribes.
-/

/-- An inbound attachment: a filename and a data URI (src/app/models.py,
class Attachment). -/
structure Attachment where
  name : String
  url : String
deriving DecidableEq, Repr

/-- The validated request body (src/app/models.py, class TaskRequest).
Pydantic validation bounds the round: 1 ≤ round ≤ 3. -/
structure TaskRequest where
  email : String
  secret : String
  task : String
  round : Nat
  nonce : String
  brief : String
  checks : List String
  evaluation_url : String
  attachments : List Attachment
deriving DecidableEq, Repr

/-- The payload built in process_request (src/app/main.py lines 218-226),
sent to the notifier and stored as the idempotency record.  It has no
evaluation-URL field. -/
structure PublishOutcome where
  email : String
  task : String
  round : Nat
  nonce : String
  repo_url : String
  commit_sha : Option String
  pages_url : Option String
deriving DecidableEq, Repr

/-- The idempotency store: the JSON object held in
/tmp/processed_requests.json, a mapping from key strings to outcome
records, embedded as an association list with unique keys. -/
abbrev Store : Type := List (String × PublishOutcome)

/-- Dictionary update processed[key] = payload: replace the value when the
key is present, otherwise append the new binding. -/
def storeInsert (s : Store) (k : String) (v : PublishOutcome) : Store :=
  if (List.lookup k s).isSome then
    s.map (fun p => if p.1 = k then (k, v) else p)
  else
    s ++ [(k, v)]

/-- Process-wide configuration read from the environment
(src/app/main.py lines 17-18): USER_SECRET and GITHUB_USERNAME. -/
structure Config where
  userSecret : String
  username : String
deriving DecidableEq, Repr

/-- The idempotency key, the Python f-string
email ++ "::" ++ task ++ "::round" ++ str(round) ++ "::nonce" ++ nonce
(src/app/main.py lines 231 and 273). -/
def mkKey (email task : String) (round : Nat) (nonce : String) : String :=
  email ++ "::" ++ task ++ "::round" ++ toString round ++ "::nonce" ++ nonce

/-- A saved-attachment descriptor in the generator's manifest:
name, local path and MIME type. -/
structure SavedAttachment where
  name : String
  path : String
  mime : String
deriving DecidableEq, Repr

/-- The generator's output: a mapping from file path to text content plus
the saved-attachment manifest. -/
structure GeneratedArtifact where
  files : List (String × String)
  attachments : List SavedAttachment
deriving DecidableEq, Repr

/-- Python str.startswith over the character list of the string. -/
def pyStartsWith (s p : String) : Bool :=
  List.isPrefixOf p.data s.data

/-- Python str.endswith over the character list of the string. -/
def pyEndsWith (s p : String) : Bool :=
  List.isSuffixOf p.data s.data

/-- The classification test of src/app/main.py line 186: the attachment is
committed as text when its MIME type starts with "text" or its name ends
with .md, .csv, .json or .txt. -/
def isTextAttachment (att : SavedAttachment) : Bool :=
  pyStartsWith att.mime "text" ||
    pyEndsWith att.name ".md" || pyEndsWith att.name ".csv" ||
    pyEndsWith att.name ".json" || pyEndsWith att.name ".txt"

/-- Base64 alphabet (RFC 4648), used by base64.b64encode. -/
def b64Alphabet : List Char :=
  "ABCDEFGHIJKLMNOPQRSTUVWXYZabcdefghijklmnopqrstuvwxyz0123456789+/".data

/-- Character of the base64 alphabet at a 6-bit index. -/
def b64Char (n : Nat) : Char :=
  b64Alphabet.getD n 'A'

/-- Standard base64 encoding of a byte list (base64.b64encode), grouping
bytes in threes with = padding. -/
def b64EncodeList : List Nat → List Char
  | [] => []
  | [a] => [b64Char (a / 4), b64Char (a % 4 * 16), '=', '=']
  | [a, b] => [b64Char (a / 4), b64Char (a % 4 * 16 + b / 16), b64Char (b % 16 * 4), '=']
  | a :: b :: c :: rest =>
      b64Char (a / 4) :: b64Char (a % 4 * 16 + b / 16) ::
        b64Char (b % 16 * 4 + c / 64) :: b64Char (c % 64) :: b64EncodeList rest

/-- Base64 encoding of a byte list as a string. -/
def b64encode (bytes : List Nat) : String :=
  String.mk (b64EncodeList bytes)

/-- Modelled from the spec: decode_attachments (app/llm_generator.py, not
among the provided sources) decodes each attachment's data URI to local
storage and collects the saved paths; per-attachment failures are caught
there and are non-fatal, so the call itself always returns.  The argument
dec gives each attachment's decode outcome. -/
def decode_attachments (dec : Attachment → Except Unit String)
    (atts : List Attachment) : List String :=
  atts.foldr (fun a acc => match dec a with | .ok p => p :: acc | .error _ => acc) []

/-- Modelled from the spec: generate_mit_license (app/github_utils.py, not
among the provided sources) returns a fixed standard permissive license
body. -/
def mitLicenseText : String := "MIT License"

/-- One collaborator call made by the background sequence, with the
arguments it was given. -/
inductive Event where
  | decodeAttachments (atts : List Attachment)
  | createRepo (task : String) (description : String)
  | fetchReadme (path : String)
  | generate (brief : String) (atts : List Attachment) (checks : List String)
      (round : Nat) (prevReadme : Option String)
  | commitText (path : String) (content : String) (message : String)
  | commitBinary (path : String) (content : List Nat) (message : String)
  | enablePages (task : String)
  | fetchCommitSha
  | notify (url : String) (payload : PublishOutcome)
  | storeLoad
  | storeSave
deriving DecidableEq, Repr

/-- The answers the external collaborators give during one background run:
the created repo's html_url, the round-2 README fetch outcome, the
generator's artifact, the local filesystem read for each saved attachment,
whether the guarded binary commit of an attachment succeeds, the
enable_pages result, the latest-commit-SHA fetch outcome, and the UTF-8
text decoding (errors ignored) of raw bytes. -/
structure Oracle where
  repoUrl : String
  readme : Except Unit String
  gen : GeneratedArtifact
  readFile : String → Except Unit (List Nat)
  binaryCommitOk : String → Bool
  pagesOk : Bool
  commitSha : Option String
  utf8Decode : List Nat → String

/-- The per-attachment body of the round-1 loop (src/app/main.py lines
181-194), as the list of collaborator calls it performs.  The body is
wrapped in try/except: a failing local-file read makes no call; in the
binary branch the base64 backup commit happens only if the binary commit
itself did not raise. -/
def commitAttachmentEvents (o : Oracle) (att : SavedAttachment) : List Event :=
  match o.readFile att.path with
  | .error _ => []
  | .ok content_bytes =>
    if isTextAttachment att then
      [Event.commitText att.name (o.utf8Decode content_bytes)
        ("Add attachment " ++ att.name)]
    else
      Event.commitBinary att.name content_bytes ("Add binary " ++ att.name) ::
        (if o.binaryCommitOk att.name then
          [Event.commitText ("attachments/" ++ att.name ++ ".b64")
            (b64encode content_bytes) ("Backup " ++ att.name ++ ".b64")]
        else [])

/-- The pages URL string synthesized in src/app/main.py lines 208 and 211. -/
def pagesUrlString (username task_id : String) : String :=
  "https://" ++ username ++ ".github.io/" ++ task_id ++ "/"

/-- Step 4 of process_request (src/app/main.py lines 205-211): on round 1
call enable_pages and set the pages URL only on success; otherwise make no
call and set the URL unconditionally. -/
def pagesStep (o : Oracle) (username task_id : String) (round : Nat) :
    List Event × Option String :=
  if round = 1 then
    ([Event.enablePages task_id],
      if o.pagesOk then some (pagesUrlString username task_id) else none)
  else
    ([], some (pagesUrlString username task_id))

/-- The prior-README context passed to the generator (src/app/main.py lines
157-164): on round 2, the decoded README when the guarded fetch succeeds
and none when it raises; on any other round, none. -/
def prevReadmeOf (round_num : Nat) (readme : Except Unit String) : Option String :=
  if round_num = 2 then
    match readme with
    | .ok s => some s
    | .error _ => none
  else none

/-- The outcome of one background run: the trace of collaborator calls, the
payload it notifies and records, and the updated idempotency store. -/
structure RunResult where
  events : List Event
  payload : PublishOutcome
  store : Store
deriving DecidableEq

/-- The background publish sequence process_request (src/app/main.py lines
144-235) on one request, with collaborator answers given by dec and o and
the idempotency store passed explicitly. -/
def process_request (cfg : Config) (data : TaskRequest)
    (dec : Attachment → Except Unit String) (o : Oracle) (store : Store) :
    RunResult :=
  let round_num := data.round
  let task_id := data.task
  let attachments := data.attachments
  let _saved_attachments := decode_attachments dec attachments
  let repoEvents := [Event.decodeAttachments attachments,
    Event.createRepo task_id ("Auto-generated app for task: " ++ data.brief)]
  let readmeEvents : List Event :=
    if round_num = 2 then [Event.fetchReadme "README.md"] else []
  let prev_readme : Option String := prevReadmeOf round_num o.readme
  let genEvents := [Event.generate data.brief attachments data.checks
    round_num prev_readme]
  let files := o.gen.files
  let saved_info := o.gen.attachments
  let roundEvents : List Event :=
    if round_num = 1 then (saved_info.map (commitAttachmentEvents o)).flatten
    else []
  let commonEvents :=
    files.map (fun p => Event.commitText p.1 p.2 ("Add/Update " ++ p.1)) ++
      [Event.commitText "LICENSE" mitLicenseText "Add MIT license"]
  let pages := pagesStep o cfg.username task_id data.round
  let payload : PublishOutcome :=
    { email := data.email
      task := data.task
      round := round_num
      nonce := data.nonce
      repo_url := o.repoUrl
      commit_sha := o.commitSha
      pages_url := pages.2 }
  let key := mkKey data.email data.task round_num data.nonce
  { events := repoEvents ++ readmeEvents ++ genEvents ++ roundEvents ++
      commonEvents ++ pages.1 ++ [Event.fetchCommitSha] ++
      [Event.notify data.evaluation_url payload] ++
      [Event.storeLoad, Event.storeSave]
    payload := payload
    store := storeInsert store key payload }

/-- A side effect performed synchronously by the intake endpoint. -/
inductive IntakeEvent where
  | storeLoad
  | notify (url : String) (payload : PublishOutcome)
  | schedule (data : TaskRequest)
deriving DecidableEq, Repr

/-- The synchronous HTTP outcome of the intake endpoint: a 200 TaskResponse
with status and note, or a raised HTTPException with status code and
detail. -/
inductive Response where
  | ok (status : String) (note : String)
  | httpError (code : Nat) (detail : String)
deriving DecidableEq, Repr

/-- The result of one call to the intake endpoint: the synchronous
response, the side effects performed in order, and the resulting store. -/
structure IntakeResult where
  response : Response
  events : List IntakeEvent
  store : Store
deriving DecidableEq

/-- The intake endpoint receive_request (src/app/main.py lines 258-291):
reject on secret mismatch before touching anything; otherwise load the
store, compute the key, and either re-notify the stored record (duplicate)
or schedule one background task and answer accepted. -/
def receive_request (cfg : Config) (task : TaskRequest) (store : Store) :
    IntakeResult :=
  if task.secret ≠ cfg.userSecret then
    { response := Response.httpError 401 "Invalid secret"
      events := []
      store := store }
  else
    let key := mkKey task.email task.task task.round task.nonce
    match List.lookup key store with
    | some prev =>
        { response := Response.ok "ok" "duplicate handled & re-notified"
          events := [IntakeEvent.storeLoad,
            IntakeEvent.notify task.evaluation_url prev]
          store := store }
    | none =>
        { response := Response.ok "accepted"
            ("processing round " ++ toString task.round ++ " started")
          events := [IntakeEvent.storeLoad, IntakeEvent.schedule task]
          store := store }

/-- Recognizer for schedule events. -/
def isSchedule : IntakeEvent → Bool
  | IntakeEvent.schedule _ => true
  | _ => false

/-- Recognizer for intake notify events. -/
def isIntakeNotify : IntakeEvent → Bool
  | IntakeEvent.notify _ _ => true
  | _ => false

/-- Recognizer for enable-pages events. -/
def isEnablePages : Event → Bool
  | Event.enablePages _ => true
  | _ => false

/-- Recognizer for generator-invocation events. -/
def isGenerate : Event → Bool
  | Event.generate _ _ _ _ _ => true
  | _ => false

/-- Concrete configuration used by witness instantiations. -/
def wCfg : Config := { userSecret := "s3cr3t", username := "acct" }

/-- Concrete stored outcome used by witness instantiations. -/
def wPrev : PublishOutcome :=
  { email := "a@b.com", task := "t1", round := 1, nonce := "n1"
    repo_url := "https://repo/t1", commit_sha := none, pages_url := none }

/-- Concrete request used by witness instantiations. -/
def wTask : TaskRequest :=
  { email := "a@b.com", secret := "s3cr3t", task := "t1", round := 1
    nonce := "n1", brief := "hello app", checks := []
    evaluation_url := "https://eval/x", attachments := [] }

/-- Concrete store holding the record for wTask's key. -/
def wStore : Store := [(mkKey "a@b.com" "t1" 1 "n1", wPrev)]

/-- C1: a valid request whose idempotency key is already in the store gets
the duplicate response synchronously, exactly one notifier call carrying
the stored record verbatim, no scheduled background unit, and an unchanged
store. -/
theorem receive_request_duplicate (cfg : Config) (task : TaskRequest)
    (store : Store) (prev : PublishOutcome)
    (hsec : task.secret = cfg.userSecret)
    (hdup : List.lookup (mkKey task.email task.task task.round task.nonce) store
      = some prev) :
    (receive_request cfg task store).response
        = Response.ok "ok" "duplicate handled & re-notified" ∧
    (receive_request cfg task store).events.filter isIntakeNotify
        = [IntakeEvent.notify task.evaluation_url prev] ∧
    (receive_request cfg task store).events.countP isSchedule = 0 ∧
    (receive_request cfg task store).store = store := by
  simp [receive_request, hsec, hdup, isIntakeNotify, isSchedule]

/-- Witness for C1 at a concrete duplicate request. -/
theorem receive_request_duplicate_witness :
    (receive_request wCfg wTask wStore).response
        = Response.ok "ok" "duplicate handled & re-notified" ∧
    (receive_request wCfg wTask wStore).events.filter isIntakeNotify
        = [IntakeEvent.notify wTask.evaluation_url wPrev] ∧
    (receive_request wCfg wTask wStore).events.countP isSchedule = 0 ∧
    (receive_request wCfg wTask wStore).store = wStore :=
  receive_request_duplicate wCfg wTask wStore wPrev (by decide) (by decide)

/-- C2: a request whose secret differs from the configured one is rejected
with a 401 and nothing else happens: no store read or write, no notifier
call, no scheduled background unit. -/
theorem receive_request_bad_secret (cfg : Config) (task : TaskRequest)
    (store : Store) (h : task.secret ≠ cfg.userSecret) :
    receive_request cfg task store
      = { response := Response.httpError 401 "Invalid secret"
          events := []
          store := store } := by
  simp [receive_request, h]

/-- Witness for C2 at a concrete mismatched secret. -/
theorem receive_request_bad_secret_witness :
    receive_request wCfg
        { wTask with secret := "wrong" } wStore
      = { response := Response.httpError 401 "Invalid secret"
          events := []
          store := wStore } :=
  receive_request_bad_secret wCfg { wTask with secret := "wrong" } wStore (by decide)

/-- C8: a first-time request with the configured secret is answered with
status accepted and exactly one background unit is scheduled, carrying the
full request payload. -/
theorem receive_request_accepted (cfg : Config) (task : TaskRequest)
    (store : Store)
    (hsec : task.secret = cfg.userSecret)
    (hnew : List.lookup (mkKey task.email task.task task.round task.nonce) store
      = none) :
    (receive_request cfg task store).response
        = Response.ok "accepted"
            ("processing round " ++ toString task.round ++ " started") ∧
    (receive_request cfg task store).events.filter isSchedule
        = [IntakeEvent.schedule task] := by
  simp [receive_request, hsec, hnew, isSchedule, isIntakeNotify]

/-- Witness for C8 at a concrete fresh request. -/
theorem receive_request_accepted_witness :
    (receive_request wCfg wTask []).response
        = Response.ok "accepted"
            ("processing round " ++ toString wTask.round ++ " started") ∧
    (receive_request wCfg wTask []).events.filter isSchedule
        = [IntakeEvent.schedule wTask] :=
  receive_request_accepted wCfg wTask [] (by decide) (by decide)

/-- C9: on duplicate detection the re-notification goes to the current
request's evaluation URL: two duplicate submissions agreeing on the key
fields each get the same stored record, delivered to their own
evaluation_url. -/
theorem duplicate_renotify_uses_current_url (cfg : Config)
    (t1 t2 : TaskRequest) (store : Store) (prev : PublishOutcome)
    (hs1 : t1.secret = cfg.userSecret) (hs2 : t2.secret = cfg.userSecret)
    (he : t1.email = t2.email) (ht : t1.task = t2.task)
    (hr : t1.round = t2.round) (hn : t1.nonce = t2.nonce)
    (hdup : List.lookup (mkKey t1.email t1.task t1.round t1.nonce) store
      = some prev) :
    (receive_request cfg t1 store).events.filter isIntakeNotify
        = [IntakeEvent.notify t1.evaluation_url prev] ∧
    (receive_request cfg t2 store).events.filter isIntakeNotify
        = [IntakeEvent.notify t2.evaluation_url prev] := by
  have hdup2 :
      List.lookup (mkKey t2.email t2.task t2.round t2.nonce) store = some prev := by
    rw [← he, ← ht, ← hr, ← hn]; exact hdup
  constructor
  · simp [receive_request, hs1, hdup, isIntakeNotify]
  · simp [receive_request, hs2, hdup2, isIntakeNotify]

/-- Witness for C9: the same stored record is re-delivered to two different
evaluation URLs. -/
theorem duplicate_renotify_uses_current_url_witness :
    (receive_request wCfg wTask wStore).events.filter isIntakeNotify
        = [IntakeEvent.notify wTask.evaluation_url wPrev] ∧
    (receive_request wCfg { wTask with evaluation_url := "https://eval/other" }
        wStore).events.filter isIntakeNotify
        = [IntakeEvent.notify
            ({ wTask with evaluation_url := "https://eval/other" }).evaluation_url
            wPrev] :=
  duplicate_renotify_uses_current_url wCfg wTask
    { wTask with evaluation_url := "https://eval/other" } wStore wPrev
    (by decide) (by decide) (by decide) (by decide) (by decide) (by decide)
    (by decide)

/-- Every event the round-1 per-attachment body emits is a text or binary
commit, so it is neither an enable-pages call nor a generator call. -/
theorem commitAttachmentEvents_commits (o : Oracle) (att : SavedAttachment) :
    ∀ e ∈ commitAttachmentEvents o att,
      isEnablePages e = false ∧ isGenerate e = false := by
  intro e he
  cases hx : o.readFile att.path with
  | error u => simp [commitAttachmentEvents, hx] at he
  | ok content_bytes =>
    simp only [commitAttachmentEvents, hx] at he
    by_cases hT : isTextAttachment att
    · simp [hT] at he
      subst he
      exact ⟨rfl, rfl⟩
    · simp [hT] at he
      by_cases hB : o.binaryCommitOk att.name
      · simp [hB] at he
        rcases he with rfl | rfl <;> exact ⟨rfl, rfl⟩
      · simp [hB] at he
        subst he
        exact ⟨rfl, rfl⟩

/-- The flattened round-1 attachment-commit trace contains no enable-pages
call. -/
theorem countP_enablePages_attachment_loop (o : Oracle)
    (l : List SavedAttachment) :
    (List.map (List.countP isEnablePages ∘ commitAttachmentEvents o) l).sum = 0 := by
  apply List.sum_eq_zero
  intro x hx
  rw [List.mem_map] at hx
  obtain ⟨att, _, rfl⟩ := hx
  simp only [Function.comp_apply]
  rw [List.countP_eq_zero]
  intro e he
  simp [(commitAttachmentEvents_commits o att e he).1]

/-- The common file-commit trace contains no enable-pages call. -/
theorem countP_enablePages_files (files : List (String × String)) :
    List.countP (isEnablePages ∘ fun p => Event.commitText p.1 p.2 ("Add/Update " ++ p.1))
        files = 0 := by
  rw [List.countP_eq_zero]
  intro p hp
  simp [isEnablePages, Function.comp]

/-- C3: on round 1 the run makes exactly one enable-pages call, for the
task's repository, and the recorded pages_url is the deterministic string
exactly when enablement succeeds; on round 2 or later no enable-pages call
is made and the pages_url is that string unconditionally. -/
theorem process_request_pages (cfg : Config) (data : TaskRequest)
    (dec : Attachment → Except Unit String) (o : Oracle) (store : Store) :
    (data.round = 1 →
      (process_request cfg data dec o store).events.countP isEnablePages = 1 ∧
      Event.enablePages data.task ∈ (process_request cfg data dec o store).events ∧
      (process_request cfg data dec o store).payload.pages_url
        = (if o.pagesOk then some (pagesUrlString cfg.username data.task)
           else none)) ∧
    (2 ≤ data.round →
      (process_request cfg data dec o store).events.countP isEnablePages = 0 ∧
      (process_request cfg data dec o store).payload.pages_url
        = some (pagesUrlString cfg.username data.task)) := by
  constructor
  · intro h1
    refine ⟨?_, ?_, ?_⟩
    · simp [process_request, h1, pagesStep, List.countP_append,
        countP_enablePages_attachment_loop, countP_enablePages_files,
        List.countP_cons, isEnablePages]
    · simp [process_request, h1, pagesStep]
    · simp [process_request, h1, pagesStep]
  · intro h2
    have h1 : data.round ≠ 1 := by omega
    refine ⟨?_, ?_⟩
    · rcases eq_or_ne data.round 2 with hr2 | hr2 <;>
        simp [process_request, h1, hr2, pagesStep, List.countP_append,
          countP_enablePages_attachment_loop, countP_enablePages_files,
          List.countP_cons, isEnablePages]
    · simp [process_request, h1, pagesStep]

/-- Oracle used by witness instantiations: the README fetch fails, the
generator returns one file and a two-attachment manifest, local reads
succeed, commits succeed, pages enablement succeeds. -/
def wOracle : Oracle :=
  { repoUrl := "https://repo/t1"
    readme := Except.error ()
    gen :=
      { files := [("index.html", "<html></html>")]
        attachments :=
          [{ name := "notes.md", path := "/tmp/notes.md", mime := "text/plain" },
           { name := "photo.png", path := "/tmp/photo.png", mime := "image/png" }] }
    readFile := fun p =>
      if p = "/tmp/notes.md" then Except.ok [104, 105]
      else if p = "/tmp/photo.png" then Except.ok [137, 80, 78, 71]
      else Except.error ()
    binaryCommitOk := fun _ => true
    pagesOk := true
    commitSha := some "abc123"
    utf8Decode := fun _ => "hi" }

/-- Decode outcome used by witness instantiations: every decode fails. -/
def wDecFail : Attachment → Except Unit String := fun _ => Except.error ()

/-- Witness for C3 at a concrete round-1 run and a concrete round-2 run. -/
theorem process_request_pages_witness :
    ((wTask.round = 1 →
      (process_request wCfg wTask wDecFail wOracle []).events.countP isEnablePages = 1 ∧
      Event.enablePages wTask.task ∈ (process_request wCfg wTask wDecFail wOracle []).events ∧
      (process_request wCfg wTask wDecFail wOracle []).payload.pages_url
        = (if wOracle.pagesOk then some (pagesUrlString wCfg.username wTask.task)
           else none)) ∧
    (2 ≤ wTask.round →
      (process_request wCfg wTask wDecFail wOracle []).events.countP isEnablePages = 0 ∧
      (process_request wCfg wTask wDecFail wOracle []).payload.pages_url
        = some (pagesUrlString wCfg.username wTask.task))) ∧
    wTask.round = 1 ∧
    ((({ wTask with round := 2 } : TaskRequest).round = 1 →
      (process_request wCfg { wTask with round := 2 } wDecFail wOracle []).events.countP
          isEnablePages = 1 ∧
      Event.enablePages ({ wTask with round := 2 } : TaskRequest).task
          ∈ (process_request wCfg { wTask with round := 2 } wDecFail wOracle []).events ∧
      (process_request wCfg { wTask with round := 2 } wDecFail wOracle []).payload.pages_url
        = (if wOracle.pagesOk then
            some (pagesUrlString wCfg.username ({ wTask with round := 2 } : TaskRequest).task)
           else none)) ∧
    (2 ≤ ({ wTask with round := 2 } : TaskRequest).round →
      (process_request wCfg { wTask with round := 2 } wDecFail wOracle []).events.countP
          isEnablePages = 0 ∧
      (process_request wCfg { wTask with round := 2 } wDecFail wOracle []).payload.pages_url
        = some (pagesUrlString wCfg.username
            ({ wTask with round := 2 } : TaskRequest).task))) ∧
    2 ≤ ({ wTask with round := 2 } : TaskRequest).round :=
  ⟨process_request_pages wCfg wTask wDecFail wOracle [], by decide,
   process_request_pages wCfg { wTask with round := 2 } wDecFail wOracle [], by decide⟩

/-- The flattened round-1 attachment-commit trace contains no generator
call. -/
theorem countP_isGenerate_attachment_loop (o : Oracle)
    (l : List SavedAttachment) :
    (List.map (List.countP isGenerate ∘ commitAttachmentEvents o) l).sum = 0 := by
  apply List.sum_eq_zero
  intro x hx
  rw [List.mem_map] at hx
  obtain ⟨att, _, rfl⟩ := hx
  simp only [Function.comp_apply]
  rw [List.countP_eq_zero]
  intro e he
  simp [(commitAttachmentEvents_commits o att e he).2]

/-- The common file-commit trace contains no generator call. -/
theorem countP_isGenerate_files (files : List (String × String)) :
    List.countP (isGenerate ∘ fun p => Event.commitText p.1 p.2 ("Add/Update " ++ p.1))
        files = 0 := by
  rw [List.countP_eq_zero]
  intro p hp
  simp [isGenerate, Function.comp]

/-- The background run makes exactly one generator call, whatever the
round and collaborator answers. -/
theorem process_request_one_generate (cfg : Config) (data : TaskRequest)
    (dec : Attachment → Except Unit String) (o : Oracle) (store : Store) :
    (process_request cfg data dec o store).events.countP isGenerate = 1 := by
  rcases eq_or_ne data.round 1 with h1 | h1
  · simp [process_request, h1, pagesStep, List.countP_append, List.countP_cons,
      countP_isGenerate_attachment_loop, countP_isGenerate_files, isGenerate]
  · rcases eq_or_ne data.round 2 with h2 | h2 <;>
      simp [process_request, h1, h2, pagesStep, List.countP_append, List.countP_cons,
        countP_isGenerate_attachment_loop, countP_isGenerate_files, isGenerate]

/-- C6: on a round-2 run whose README fetch fails, the generator is
invoked (exactly once) with no prior-README context, and the sequence
proceeds to completion: the notification is sent and the idempotency
record is written. -/
theorem process_request_round2_readme_failure (cfg : Config)
    (data : TaskRequest) (dec : Attachment → Except Unit String) (o : Oracle)
    (store : Store)
    (hr : data.round = 2) (hfail : o.readme = Except.error ()) :
    (process_request cfg data dec o store).events.countP isGenerate = 1 ∧
    Event.generate data.brief data.attachments data.checks 2 none
        ∈ (process_request cfg data dec o store).events ∧
    Event.notify data.evaluation_url (process_request cfg data dec o store).payload
        ∈ (process_request cfg data dec o store).events ∧
    Event.storeSave ∈ (process_request cfg data dec o store).events ∧
    (process_request cfg data dec o store).store
        = storeInsert store (mkKey data.email data.task 2 data.nonce)
            (process_request cfg data dec o store).payload := by
  refine ⟨process_request_one_generate cfg data dec o store, ?_, ?_, ?_, ?_⟩
  · simp [process_request, hr, hfail, prevReadmeOf, pagesStep]
  · simp [process_request, hr, pagesStep]
  · simp [process_request, hr, pagesStep]
  · simp [process_request, hr, pagesStep]

/-- Witness for C6 at a concrete round-2 request whose README fetch
fails. -/
theorem process_request_round2_readme_failure_witness :
    (process_request wCfg { wTask with round := 2 } wDecFail wOracle []).events.countP
        isGenerate = 1 ∧
    Event.generate ({ wTask with round := 2 } : TaskRequest).brief
        ({ wTask with round := 2 } : TaskRequest).attachments
        ({ wTask with round := 2 } : TaskRequest).checks 2 none
        ∈ (process_request wCfg { wTask with round := 2 } wDecFail wOracle []).events ∧
    Event.notify ({ wTask with round := 2 } : TaskRequest).evaluation_url
        (process_request wCfg { wTask with round := 2 } wDecFail wOracle []).payload
        ∈ (process_request wCfg { wTask with round := 2 } wDecFail wOracle []).events ∧
    Event.storeSave
        ∈ (process_request wCfg { wTask with round := 2 } wDecFail wOracle []).events ∧
    (process_request wCfg { wTask with round := 2 } wDecFail wOracle []).store
        = storeInsert [] (mkKey ({ wTask with round := 2 } : TaskRequest).email
              ({ wTask with round := 2 } : TaskRequest).task 2
              ({ wTask with round := 2 } : TaskRequest).nonce)
            (process_request wCfg { wTask with round := 2 } wDecFail wOracle []).payload :=
  process_request_round2_readme_failure wCfg { wTask with round := 2 } wDecFail
    wOracle [] (by decide) rfl

/-- If every attachment's decode fails, decode_attachments returns the
empty list of saved paths. -/
theorem decode_attachments_all_fail (dec : Attachment → Except Unit String)
    (atts : List Attachment) (h : ∀ a ∈ atts, dec a = Except.error ()) :
    decode_attachments dec atts = [] := by
  induction atts with
  | nil => rfl
  | cons a l ih =>
    have ha : dec a = Except.error () := h a (List.mem_cons_self a l)
    have hl : decode_attachments dec l = []
      := ih (fun x hx => h x (List.mem_cons_of_mem a hx))
    unfold decode_attachments at hl ⊢
    rw [List.foldr_cons, ha, hl]

/-- C7: failures while materializing the inbound attachments are absorbed
and never abort the run: even when every decode fails, materialization
yields the empty saved list and the remaining sequence still makes the
repository-creation call, exactly one generator call, the notification
and the idempotency-record write. -/
theorem process_request_decode_failure (cfg : Config) (data : TaskRequest)
    (dec : Attachment → Except Unit String) (o : Oracle) (store : Store)
    (hfail : ∀ a ∈ data.attachments, dec a = Except.error ()) :
    decode_attachments dec data.attachments = [] ∧
    Event.createRepo data.task ("Auto-generated app for task: " ++ data.brief)
        ∈ (process_request cfg data dec o store).events ∧
    (process_request cfg data dec o store).events.countP isGenerate = 1 ∧
    Event.notify data.evaluation_url (process_request cfg data dec o store).payload
        ∈ (process_request cfg data dec o store).events ∧
    Event.storeSave ∈ (process_request cfg data dec o store).events := by
  refine ⟨decode_attachments_all_fail dec data.attachments hfail, ?_,
    process_request_one_generate cfg data dec o store, ?_, ?_⟩
  · simp [process_request, pagesStep]
  · simp [process_request, pagesStep]
  · simp [process_request, pagesStep]

/-- Witness for C7 at a concrete request with one attachment whose decode
fails. -/
theorem process_request_decode_failure_witness :
    decode_attachments wDecFail
        ({ wTask with attachments := [{ name := "photo.png", url := "data:bad" }]
          } : TaskRequest).attachments = [] ∧
    Event.createRepo ({ wTask with attachments := [{ name := "photo.png", url := "data:bad" }]
          } : TaskRequest).task
        ("Auto-generated app for task: "
          ++ ({ wTask with attachments := [{ name := "photo.png", url := "data:bad" }]
              } : TaskRequest).brief)
        ∈ (process_request wCfg
            { wTask with attachments := [{ name := "photo.png", url := "data:bad" }] }
            wDecFail wOracle []).events ∧
    (process_request wCfg
        { wTask with attachments := [{ name := "photo.png", url := "data:bad" }] }
        wDecFail wOracle []).events.countP isGenerate = 1 ∧
    Event.notify ({ wTask with attachments := [{ name := "photo.png", url := "data:bad" }]
          } : TaskRequest).evaluation_url
        (process_request wCfg
          { wTask with attachments := [{ name := "photo.png", url := "data:bad" }] }
          wDecFail wOracle []).payload
        ∈ (process_request wCfg
            { wTask with attachments := [{ name := "photo.png", url := "data:bad" }] }
            wDecFail wOracle []).events ∧
    Event.storeSave
        ∈ (process_request wCfg
            { wTask with attachments := [{ name := "photo.png", url := "data:bad" }] }
            wDecFail wOracle []).events :=
  process_request_decode_failure wCfg
    { wTask with attachments := [{ name := "photo.png", url := "data:bad" }] }
    wDecFail wOracle [] (fun _ _ => rfl)

/-- C10: the run is independent of what the attachment materializer
returns: two runs differing only in the decode outcomes are identical,
and the single generator call receives the raw attachment list from the
request, never the materialized paths. -/
theorem process_request_decode_independent (cfg : Config) (data : TaskRequest)
    (dec dec' : Attachment → Except Unit String) (o : Oracle) (store : Store) :
    process_request cfg data dec o store = process_request cfg data dec' o store ∧
    (process_request cfg data dec o store).events.countP isGenerate = 1 ∧
    Event.generate data.brief data.attachments data.checks data.round
        (prevReadmeOf data.round o.readme)
        ∈ (process_request cfg data dec o store).events := by
  refine ⟨rfl, process_request_one_generate cfg data dec o store, ?_⟩
  simp [process_request, pagesStep]

/-- C5: in a round-1 run the trace contains, in order, exactly the commit
events of each manifest attachment; an attachment whose MIME type starts
with text or whose name ends in .md, .csv, .json or .txt produces exactly
one text commit under its name, and any other attachment produces a binary
commit under its name plus a base64 text backup commit at
attachments/name.b64. -/
theorem process_request_round1_attachment_classification (cfg : Config)
    (data : TaskRequest) (dec : Attachment → Except Unit String) (o : Oracle)
    (store : Store) (att : SavedAttachment) (content_bytes : List Nat)
    (h1 : data.round = 1)
    (_hmem : att ∈ o.gen.attachments)
    (hread : o.readFile att.path = Except.ok content_bytes) :
    (∃ pre post, (process_request cfg data dec o store).events
        = pre ++ (o.gen.attachments.map (commitAttachmentEvents o)).flatten ++ post) ∧
    (isTextAttachment att = true →
      commitAttachmentEvents o att
        = [Event.commitText att.name (o.utf8Decode content_bytes)
            ("Add attachment " ++ att.name)]) ∧
    (isTextAttachment att = false → o.binaryCommitOk att.name = true →
      commitAttachmentEvents o att
        = [Event.commitBinary att.name content_bytes ("Add binary " ++ att.name),
           Event.commitText ("attachments/" ++ att.name ++ ".b64")
             (b64encode content_bytes) ("Backup " ++ att.name ++ ".b64")]) := by
  refine ⟨?_, ?_, ?_⟩
  · refine ⟨[Event.decodeAttachments data.attachments,
      Event.createRepo data.task ("Auto-generated app for task: " ++ data.brief),
      Event.generate data.brief data.attachments data.checks data.round
        (prevReadmeOf data.round o.readme)],
      (o.gen.files.map (fun p => Event.commitText p.1 p.2 ("Add/Update " ++ p.1)))
        ++ [Event.commitText "LICENSE" mitLicenseText "Add MIT license"]
        ++ [Event.enablePages data.task]
        ++ [Event.fetchCommitSha]
        ++ [Event.notify data.evaluation_url
              (process_request cfg data dec o store).payload]
        ++ [Event.storeLoad, Event.storeSave], ?_⟩
    simp [process_request, h1, pagesStep, prevReadmeOf]
  · intro hT
    simp [commitAttachmentEvents, hread, hT]
  · intro hT hB
    simp [commitAttachmentEvents, hread, hT, hB]

/-- Witness for C5: the concrete oracle's manifest holds notes.md with
MIME text/plain (one text commit) and photo.png with MIME image/png (a
binary commit plus its base64 backup). -/
theorem process_request_round1_attachment_classification_witness :
    ((∃ pre post, (process_request wCfg wTask wDecFail wOracle []).events
        = pre ++ (wOracle.gen.attachments.map (commitAttachmentEvents wOracle)).flatten
            ++ post) ∧
    (isTextAttachment { name := "notes.md", path := "/tmp/notes.md", mime := "text/plain" } = true →
      commitAttachmentEvents wOracle
          { name := "notes.md", path := "/tmp/notes.md", mime := "text/plain" }
        = [Event.commitText "notes.md" (wOracle.utf8Decode [104, 105])
            ("Add attachment " ++ "notes.md")]) ∧
    (isTextAttachment { name := "notes.md", path := "/tmp/notes.md", mime := "text/plain" } = false →
      wOracle.binaryCommitOk "notes.md" = true →
      commitAttachmentEvents wOracle
          { name := "notes.md", path := "/tmp/notes.md", mime := "text/plain" }
        = [Event.commitBinary "notes.md" [104, 105] ("Add binary " ++ "notes.md"),
           Event.commitText ("attachments/" ++ "notes.md" ++ ".b64")
             (b64encode [104, 105]) ("Backup " ++ "notes.md" ++ ".b64")])) ∧
    isTextAttachment { name := "notes.md", path := "/tmp/notes.md", mime := "text/plain" } = true ∧
    ((∃ pre post, (process_request wCfg wTask wDecFail wOracle []).events
        = pre ++ (wOracle.gen.attachments.map (commitAttachmentEvents wOracle)).flatten
            ++ post) ∧
    (isTextAttachment { name := "photo.png", path := "/tmp/photo.png", mime := "image/png" } = true →
      commitAttachmentEvents wOracle
          { name := "photo.png", path := "/tmp/photo.png", mime := "image/png" }
        = [Event.commitText "photo.png" (wOracle.utf8Decode [137, 80, 78, 71])
            ("Add attachment " ++ "photo.png")]) ∧
    (isTextAttachment { name := "photo.png", path := "/tmp/photo.png", mime := "image/png" } = false →
      wOracle.binaryCommitOk "photo.png" = true →
      commitAttachmentEvents wOracle
          { name := "photo.png", path := "/tmp/photo.png", mime := "image/png" }
        = [Event.commitBinary "photo.png" [137, 80, 78, 71] ("Add binary " ++ "photo.png"),
           Event.commitText ("attachments/" ++ "photo.png" ++ ".b64")
             (b64encode [137, 80, 78, 71]) ("Backup " ++ "photo.png" ++ ".b64")])) ∧
    isTextAttachment { name := "photo.png", path := "/tmp/photo.png", mime := "image/png" } = false :=
  ⟨process_request_round1_attachment_classification wCfg wTask wDecFail wOracle []
      { name := "notes.md", path := "/tmp/notes.md", mime := "text/plain" }
      [104, 105] (by decide) (by decide) rfl,
   by decide,
   process_request_round1_attachment_classification wCfg wTask wDecFail wOracle []
      { name := "photo.png", path := "/tmp/photo.png", mime := "image/png" }
      [137, 80, 78, 71] (by decide) (by decide) rfl,
   by decide⟩

/-- Splitting on a double-colon separator is unambiguous when the parts
before the separator are colon-free. -/
theorem sep_split : ∀ (a a' b b' : List Char), ':' ∉ a → ':' ∉ a' →
    a ++ ':' :: ':' :: b = a' ++ ':' :: ':' :: b' → a = a' ∧ b = b' := by
  intro a
  induction a with
  | nil =>
    intro a' b b' _ ha' h
    cases a' with
    | nil =>
      simp only [List.nil_append] at h
      injection h with h1 h2
      injection h2 with h3 h4
      exact ⟨rfl, h4⟩
    | cons y ys =>
      simp only [List.nil_append, List.cons_append] at h
      injection h with h1 h2
      exact absurd (show (':' : Char) ∈ y :: ys by simp [← h1]) ha'
  | cons x xs ih =>
    intro a' b b' ha ha' h
    cases a' with
    | nil =>
      simp only [List.cons_append, List.nil_append] at h
      injection h with h1 h2
      exact absurd (show (':' : Char) ∈ x :: xs by simp [h1]) ha
    | cons y ys =>
      simp only [List.cons_append] at h
      injection h with h1 h2
      have hxs : (':' : Char) ∉ xs := fun hm => ha (List.mem_cons_of_mem _ hm)
      have hys : (':' : Char) ∉ ys := fun hm => ha' (List.mem_cons_of_mem _ hm)
      obtain ⟨hh, hb⟩ := ih ys b b' hxs hys h2
      exact ⟨by rw [h1, hh], hb⟩

/-- The character list of the idempotency key, segment by segment. -/
theorem mkKey_data (e t : String) (r : Nat) (n : String) :
    (mkKey e t r n).data
      = e.data ++ ':' :: ':' :: (t.data ++ ':' :: ':' ::
          ('r' :: 'o' :: 'u' :: 'n' :: 'd' :: ((toString r).data ++ ':' :: ':' ::
            ('n' :: 'o' :: 'n' :: 'c' :: 'e' :: n.data)))) := by
  simp [mkKey, String.data_append]

/-- The string contains no colon character. -/
def noColon (s : String) : Prop := (':' : Char) ∉ s.data

instance (s : String) : Decidable (noColon s) := by
  unfold noColon
  infer_instance

/-- C4 counterexample: the key derivation is not injective on all tuples:
the distinct tuples (a::b, c, 1, n) and (a, b::c, 1, n) produce the same
key string. -/
theorem mkKey_injectivity_counterexample :
    mkKey "a::b" "c" 1 "n" = mkKey "a" "b::c" 1 "n" ∧
    (("a::b", "c", (1 : Nat), "n") : String × String × Nat × String)
      ≠ ("a", "b::c", 1, "n") := by
  decide

/-- C4 (amended): the key derivation is a deterministic function of the
ordered tuple (email, task, round, nonce), and it is injective on tuples
whose email and task contain no colon character and whose round lies in
the validated range 1-3: two such tuples with the same key string are
equal. -/
theorem mkKey_deterministic_and_injective (e t n e' t' n' : String)
    (r r' : Nat) :
    (e = e' → t = t' → r = r' → n = n' → mkKey e t r n = mkKey e' t' r' n') ∧
    (noColon e → noColon t → noColon e' → noColon t' →
     1 ≤ r → r ≤ 3 → 1 ≤ r' → r' ≤ 3 →
     mkKey e t r n = mkKey e' t' r' n' →
     e = e' ∧ t = t' ∧ r = r' ∧ n = n') := by
  constructor
  · intro h1 h2 h3 h4
    rw [h1, h2, h3, h4]
  · intro hE hT hE' hT' hr1 hr3 hr1' hr3' h
    have hd := congrArg String.data h
    rw [mkKey_data, mkKey_data] at hd
    obtain ⟨he, hd2⟩ := sep_split _ _ _ _ hE hE' hd
    obtain ⟨ht, hd3⟩ := sep_split _ _ _ _ hT hT' hd2
    injection hd3 with _ hd3
    injection hd3 with _ hd3
    injection hd3 with _ hd3
    injection hd3 with _ hd3
    injection hd3 with _ hd3
    have hcr : (':' : Char) ∉ (toString r).data := by interval_cases r <;> decide
    have hcr' : (':' : Char) ∉ (toString r').data := by
      interval_cases r' <;> decide
    obtain ⟨hrstr, hd4⟩ := sep_split _ _ _ _ hcr hcr' hd3
    injection hd4 with _ hd4
    injection hd4 with _ hd4
    injection hd4 with _ hd4
    injection hd4 with _ hd4
    injection hd4 with _ hd4
    refine ⟨String.ext he, String.ext ht, ?_, String.ext hd4⟩
    have hs : (toString r) = (toString r') := String.ext hrstr
    interval_cases r <;> interval_cases r' <;> revert hs <;> decide

/-- Witness for C4 at concrete colon-free tuples. -/
theorem mkKey_deterministic_and_injective_witness :
    mkKey "a@b.com" "t1" 1 "n1" = mkKey "a@b.com" "t1" 1 "n1" ∧
    (("a@b.com" : String) = "a@b.com" ∧ ("t1" : String) = "t1" ∧
      (1 : Nat) = 1 ∧ ("n1" : String) = "n1") :=
  ⟨(mkKey_deterministic_and_injective "a@b.com" "t1" "n1" "a@b.com" "t1" "n1"
      1 1).1 rfl rfl rfl rfl,
   (mkKey_deterministic_and_injective "a@b.com" "t1" "n1" "a@b.com" "t1" "n1"
      1 1).2 (by decide) (by decide) (by decide) (by decide) (by decide)
      (by decide) (by decide) (by decide) rfl⟩
